import Mathlib

/-!
Verification of the `Optimizer` base class of `chainer/optimizer.py`.

Numeric arrays (numpy/GPU buffers) are modelled as lists of real numbers;
all arithmetic is the exact-real idealization of the floating-point code,
matching the spec's "within floating-point tolerance" reading.  The GPU and
CPU code paths of the source compute the same mathematics (fill, scale,
dot, elementwise add), so a single path embeds both.  In-place mutation of
the Python object is modelled by explicit state passing: each method takes
the optimizer value and returns the updated one.
-/

namespace Chainer

/-- A numeric buffer: a numpy/GPU array flattened to its element list. -/
abbrev Buffer := List ℝ

/-- The Python exceptions this fragment can raise.  `attributeError` models
access to `self.tuples` / `self.t` before `setup`; `notImplementedError`
models the base-class update hooks; `arithmeticError` stands for runtime
arithmetic exceptions (never raised by this code, present to state
distinctness). -/
inductive PyErr where
  | attributeError
  | notImplementedError
  | arithmeticError
deriving DecidableEq

/-- `_sqnorm(x)`: the squared L2 norm of one buffer, `x.dot(x)` after
flattening (identical on the GPU path via `gpuarray.dot(x, x)`). -/
noncomputable def _sqnorm (x : Buffer) : ℝ :=
  (x.map (fun a => a * a)).sum

/-- One `(parameter, gradient, state)` tuple.  The base class state is
`None` (`init_state_cpu` / `init_state_gpu` both return `None`). -/
abbrev Triple := Buffer × Buffer × Option Unit

/-- The configured optimizer: step counter `t` and the tuple list, exactly
the attributes `setup` creates. -/
structure Optimizer where
  t : ℕ
  tuples : List Triple

/-- `Optimizer.init_state_cpu`: returns `None`. -/
def init_state_cpu (_param _grad : Buffer) : Option Unit := none

/-- `Optimizer.init_state`: dispatches to the CPU/GPU variant; both return
`None` in the base class. -/
def init_state (param grad : Buffer) : Option Unit :=
  init_state_cpu param grad

/-- `Optimizer.setup(params_grads)`: sets `t = 0` and builds the tuple list
by zipping the parameter and gradient sequences (Python `zip` truncates to
the shorter sequence) and calling `init_state` on each pair. -/
def setup (params grads : List Buffer) : Optimizer :=
  { t := 0
    tuples := (params.zip grads).map (fun pg => (pg.1, pg.2, init_state pg.1 pg.2)) }

/-- `Optimizer.zero_grads()`: fills every gradient buffer with zeros,
keeping parameters, states and `t`. -/
noncomputable def zero_grads (o : Optimizer) : Optimizer :=
  { o with tuples := o.tuples.map (fun tr => (tr.1, tr.2.1.map (fun _ => (0 : ℝ)), tr.2.2)) }

/-- The loop of `compute_grads_norm`: `sqnorm = 0; for _, g, _ in tuples:
sqnorm += _sqnorm(g)`. -/
noncomputable def sqnormAll (o : Optimizer) : ℝ :=
  (o.tuples.map (fun tr => _sqnorm tr.2.1)).sum

/-- `Optimizer.compute_grads_norm()`: `math.sqrt` of the accumulated
squared norms. -/
noncomputable def compute_grads_norm (o : Optimizer) : ℝ :=
  Real.sqrt (sqnormAll o)

/-- `Optimizer.clip_grads(maxnorm)`: if the global norm exceeds `maxnorm`,
scales every gradient buffer in place by `maxnorm / norm`; otherwise does
nothing. -/
noncomputable def clip_grads (o : Optimizer) (maxnorm : ℝ) : Optimizer :=
  let norm := compute_grads_norm o
  if norm > maxnorm then
    { o with tuples := (o.tuples.map
        (fun tr => (tr.1, tr.2.1.map (fun a => a * (maxnorm / norm)), tr.2.2))) }
  else o

/-- `Optimizer.weight_decay(decay)`: `g += decay * p` elementwise for every
tuple. -/
noncomputable def weight_decay (o : Optimizer) (decay : ℝ) : Optimizer :=
  { o with tuples := (o.tuples.map
      (fun tr => (tr.1, List.zipWith (fun g p => g + decay * p) tr.2.1 tr.1, tr.2.2))) }

/-- The loop of `accumulate_grads`: `for (_, g_dst, _), g_src in
zip(self.tuples, grads): g_dst += g_src`.  Python `zip` truncates: tuples
beyond the source list keep their gradients, extra sources are ignored.
The CPU and every GPU transfer branch perform the same elementwise
addition. -/
noncomputable def accTuples : List Triple → List Buffer → List Triple
  | ts, [] => ts
  | [], _ => []
  | tr :: ts, src :: rest =>
      (tr.1, List.zipWith (fun a b => a + b) tr.2.1 src, tr.2.2) :: accTuples ts rest

/-- `Optimizer.accumulate_grads(grads)`. -/
noncomputable def accumulate_grads (o : Optimizer) (grads : List Buffer) : Optimizer :=
  { o with tuples := accTuples o.tuples grads }

/-- `Optimizer.update_one_cpu`: `raise NotImplementedError()`. -/
def update_one_cpu (_param _grad : Buffer) (_state : Option Unit) : Except PyErr Triple :=
  .error .notImplementedError

/-- `Optimizer.update_one`: dispatches to the CPU/GPU variant; both raise
`NotImplementedError` in the base class. -/
def update_one (param grad : Buffer) (state : Option Unit) : Except PyErr Triple :=
  update_one_cpu param grad state

/-- The loop of `update`: calls `update_one` on each tuple in order; when a
hook raises, the loop aborts and the remaining tuples are untouched. -/
def updateTuples : List Triple → List Triple × Option PyErr
  | [] => ([], none)
  | tr :: ts =>
      match update_one tr.1 tr.2.1 tr.2.2 with
      | .error e => (tr :: ts, some e)
      | .ok tr2 =>
          let rest := updateTuples ts
          (tr2 :: rest.1, rest.2)

/-- `Optimizer.update()`: increments `t` first, then runs the per-tuple
hooks.  Returns the (possibly partially) mutated optimizer together with
the exception that escaped, if any. -/
def update (o : Optimizer) : Optimizer × Option PyErr :=
  let o2 : Optimizer := { o with t := o.t + 1 }
  let res := updateTuples o2.tuples
  ({ o2 with tuples := res.1 }, res.2)

/-- Parameter buffers of the optimizer, in tuple order. -/
def Optimizer.params (o : Optimizer) : List Buffer :=
  o.tuples.map (fun tr => tr.1)

/-- Gradient buffers of the optimizer, in tuple order. -/
def Optimizer.grads (o : Optimizer) : List Buffer :=
  o.tuples.map (fun tr => tr.2.1)

/-- Per-tuple states of the optimizer, in tuple order. -/
def Optimizer.states (o : Optimizer) : List (Option Unit) :=
  o.tuples.map (fun tr => tr.2.2)

/-- A Python `Optimizer` object as the caller sees it: before `setup` the
attributes `t` and `tuples` do not exist (`conf = none`, the Unconfigured
state); after `setup` they do (the Ready state). -/
structure OptObj where
  conf : Option Optimizer

/-- A freshly constructed `Optimizer()` object, before `setup`. -/
def OptObj.unconfigured : OptObj := ⟨none⟩

/-- `setup` on the object: always succeeds and (re)places all state. -/
def setupObj (_o : OptObj) (params grads : List Buffer) : OptObj :=
  ⟨some (setup params grads)⟩

/-- `zero_grads` on the object: reading `self.tuples` before `setup`
raises `AttributeError`. -/
noncomputable def zero_gradsObj (o : OptObj) : Except PyErr OptObj :=
  match o.conf with
  | none => .error .attributeError
  | some c => .ok ⟨some (zero_grads c)⟩

/-- `compute_grads_norm` on the object. -/
noncomputable def compute_grads_normObj (o : OptObj) : Except PyErr ℝ :=
  match o.conf with
  | none => .error .attributeError
  | some c => .ok (compute_grads_norm c)

/-- `clip_grads` on the object. -/
noncomputable def clip_gradsObj (o : OptObj) (maxnorm : ℝ) : Except PyErr OptObj :=
  match o.conf with
  | none => .error .attributeError
  | some c => .ok ⟨some (clip_grads c maxnorm)⟩

/-- `weight_decay` on the object. -/
noncomputable def weight_decayObj (o : OptObj) (decay : ℝ) : Except PyErr OptObj :=
  match o.conf with
  | none => .error .attributeError
  | some c => .ok ⟨some (weight_decay c decay)⟩

/-- `accumulate_grads` on the object. -/
noncomputable def accumulate_gradsObj (o : OptObj) (grads : List Buffer) : Except PyErr OptObj :=
  match o.conf with
  | none => .error .attributeError
  | some c => .ok ⟨some (accumulate_grads c grads)⟩

/-- `update` on the object: `self.t += 1` reads `self.t` first, so an
unconfigured object raises `AttributeError` before anything happens. -/
def updateObj (o : OptObj) : Except PyErr (OptObj × Option PyErr) :=
  match o.conf with
  | none => .error .attributeError
  | some c => .ok (⟨some (update c).1⟩, (update c).2)

/-- The spec's concrete scenario: one parameter `[1.0, 2.0]` with gradient
`[3.0, 4.0]`. -/
def ex1 : Optimizer := setup [[1, 2]] [[3, 4]]

/-! ## Helper lemmas -/

lemma sqnorm_nonneg (x : Buffer) : 0 ≤ _sqnorm x := by
  refine List.sum_nonneg ?_
  intro a ha
  rcases List.mem_map.mp ha with ⟨b, _, rfl⟩
  exact mul_self_nonneg b

lemma sqnormAll_nonneg (o : Optimizer) : 0 ≤ sqnormAll o := by
  refine List.sum_nonneg ?_
  intro a ha
  rcases List.mem_map.mp ha with ⟨tr, _, rfl⟩
  exact sqnorm_nonneg _

lemma sqnorm_scale (x : Buffer) (r : ℝ) :
    _sqnorm (x.map (fun a => a * r)) = r ^ 2 * _sqnorm x := by
  unfold _sqnorm
  induction x with
  | nil => simp
  | cons a xs ih => simp only [List.map_cons, List.sum_cons, ih]; ring

lemma sqnorm_zero_fill (g : Buffer) : _sqnorm (g.map (fun _ => (0 : ℝ))) = 0 := by
  unfold _sqnorm
  induction g with
  | nil => simp
  | cons a xs ih => simp [ih]

/-! ## Claim theorems -/

/-- Claim C5: after `setup` on equally long parameter and gradient
sequences, `t = 0`, the tuple count equals the input length, and the
parameters, gradients and (`None`) states appear in input order. -/
theorem C5_setup_shape (params grads : List Buffer)
    (h : params.length = grads.length) :
    (setup params grads).t = 0 ∧
    (setup params grads).tuples.length = params.length ∧
    (setup params grads).params = params ∧
    (setup params grads).grads = grads ∧
    (setup params grads).states = List.replicate params.length none := by
  refine ⟨rfl, ?_, ?_, ?_, ?_⟩
  · simp [setup, h]
  · simp only [setup, Optimizer.params, List.map_map]
    exact List.map_fst_zip params grads (le_of_eq h)
  · simp only [setup, Optimizer.grads, List.map_map]
    exact List.map_snd_zip params grads (ge_of_eq h)
  · simp [setup, Optimizer.states, List.map_map, Function.comp_def, init_state,
      init_state_cpu, List.map_const', h]

/-- Witness for C5 at the concrete scenario input. -/
theorem C5_setup_shape_witness :
    ([[1, 2]] : List Buffer).length = ([[3, 4]] : List Buffer).length ∧
    ((setup [[1, 2]] [[3, 4]]).t = 0 ∧
     (setup [[1, 2]] [[3, 4]]).tuples.length = ([[1, 2]] : List Buffer).length ∧
     (setup [[1, 2]] [[3, 4]]).params = [[1, 2]] ∧
     (setup [[1, 2]] [[3, 4]]).grads = [[3, 4]] ∧
     (setup [[1, 2]] [[3, 4]]).states = List.replicate ([[1, 2]] : List Buffer).length none) :=
  ⟨rfl, C5_setup_shape [[1, 2]] [[3, 4]] rfl⟩

/-- Claim C4: `update` increments `t` by exactly 1, and no other operation
(`zero_grads`, `clip_grads`, `weight_decay`, `accumulate_grads`; and
`compute_grads_norm`, which is a pure function returning a real and
touching no state) alters `t`. -/
theorem C4_step_counter (o : Optimizer) (maxnorm decay : ℝ) (gs : List Buffer) :
    (update o).1.t = o.t + 1 ∧
    (zero_grads o).t = o.t ∧
    (clip_grads o maxnorm).t = o.t ∧
    (weight_decay o decay).t = o.t ∧
    (accumulate_grads o gs).t = o.t := by
  refine ⟨rfl, rfl, ?_, rfl, rfl⟩
  by_cases hc : compute_grads_norm o > maxnorm <;> simp [clip_grads, hc]

/-- Claim C9: `update()` on a base `Optimizer` with at least one tuple
fails with `NotImplementedError`, which is distinct from a runtime
arithmetic error. -/
theorem C9_update_unimplemented (o : Optimizer) (h : o.tuples ≠ []) :
    (update o).2 = some PyErr.notImplementedError ∧
    PyErr.notImplementedError ≠ PyErr.arithmeticError := by
  constructor
  · match hts : o.tuples with
    | [] => exact absurd hts h
    | tr :: ts => simp [update, updateTuples, update_one, update_one_cpu, hts]
  · decide

/-- Witness for C9 at the concrete scenario optimizer. -/
theorem C9_update_unimplemented_witness :
    (update ex1).2 = some PyErr.notImplementedError ∧
    PyErr.notImplementedError ≠ PyErr.arithmeticError :=
  C9_update_unimplemented ex1 (by simp [ex1, setup])

/-- Claim C10: `update` increments `t` before invoking any hook, so when
the base class hook raises on the first tuple the step counter has already
advanced and is not rolled back (and the tuples are untouched): a failed
update is not atomic with respect to `t`. -/
theorem C10_t_not_rolled_back (o : Optimizer) (h : o.tuples ≠ []) :
    (update o).2 = some PyErr.notImplementedError ∧
    (update o).1.t = o.t + 1 ∧
    (update o).1.tuples = o.tuples := by
  refine ⟨?_, rfl, ?_⟩ <;>
  · match hts : o.tuples with
    | [] => exact absurd hts h
    | tr :: ts => simp [update, updateTuples, update_one, update_one_cpu, hts]

/-- Witness for C10 at the concrete scenario optimizer. -/
theorem C10_t_not_rolled_back_witness :
    (update ex1).2 = some PyErr.notImplementedError ∧
    (update ex1).1.t = ex1.t + 1 ∧
    (update ex1).1.tuples = ex1.tuples :=
  C10_t_not_rolled_back ex1 (by simp [ex1, setup])

/-- Claim C8: `zero_grads` zeroes every gradient buffer in place and
modifies nothing else (parameters, states, `t` unchanged), and
`compute_grads_norm` right after returns exactly `0`. -/
theorem C8_zero_grads (o : Optimizer) :
    (zero_grads o).params = o.params ∧
    (zero_grads o).t = o.t ∧
    (zero_grads o).states = o.states ∧
    (zero_grads o).grads = o.grads.map (fun g => g.map (fun _ => (0 : ℝ))) ∧
    compute_grads_norm (zero_grads o) = 0 := by
  refine ⟨?_, rfl, ?_, ?_, ?_⟩
  · simp [zero_grads, Optimizer.params, List.map_map, Function.comp_def]
  · simp [zero_grads, Optimizer.states, List.map_map, Function.comp_def]
  · simp [zero_grads, Optimizer.grads, List.map_map, Function.comp_def]
  · have hS : sqnormAll (zero_grads o) = 0 := by
      refine List.sum_eq_zero ?_
      intro x hx
      rcases List.mem_map.mp hx with ⟨tr, htr, rfl⟩
      rcases List.mem_map.mp htr with ⟨tr0, _, rfl⟩
      exact sqnorm_zero_fill _
    simp [compute_grads_norm, hS]

lemma zipWith_add_assoc (g a b : Buffer) :
    List.zipWith (fun x y => x + y) (List.zipWith (fun x y => x + y) g a) b
      = List.zipWith (fun x y => x + y) g (List.zipWith (fun x y => x + y) a b) := by
  induction g generalizing a b with
  | nil => simp
  | cons x g ih =>
      cases a with
      | nil => simp
      | cons y a =>
          cases b with
          | nil => simp
          | cons z b => simp [ih, add_assoc]

lemma accTuples_accTuples (ts : List Triple) (A B : List Buffer)
    (h : A.length = B.length) :
    accTuples (accTuples ts A) B
      = accTuples ts (List.zipWith (fun a b => List.zipWith (fun x y => x + y) a b) A B) := by
  induction A generalizing B ts with
  | nil =>
      cases B with
      | nil => simp [accTuples]
      | cons b B => exact absurd h (by simp)
  | cons a A ih =>
      cases B with
      | nil => exact absurd h (by simp)
      | cons b B =>
          cases ts with
          | nil => simp [accTuples]
          | cons tr ts =>
              simp only [accTuples, List.zipWith_cons_cons]
              rw [zipWith_add_assoc, ih ts B (by simpa using h)]

lemma accTuples_params (ts : List Triple) (A : List Buffer) :
    (accTuples ts A).map (fun tr => tr.1) = ts.map (fun tr => tr.1) := by
  induction ts generalizing A with
  | nil => cases A <;> simp [accTuples]
  | cons tr ts ih =>
      cases A with
      | nil => simp [accTuples]
      | cons a A => simp [accTuples, ih]

lemma accTuples_grads (ts : List Triple) (A : List Buffer) :
    (accTuples ts A).map (fun tr => tr.2.1)
      = (List.zipWith (fun g a => List.zipWith (fun x y => x + y) g a)
          (ts.map (fun tr => tr.2.1)) A)
        ++ (ts.map (fun tr => tr.2.1)).drop A.length := by
  induction ts generalizing A with
  | nil => cases A <;> simp [accTuples]
  | cons tr ts ih =>
      cases A with
      | nil => simp [accTuples]
      | cons a A => simp [accTuples, ih]

/-- Claim C6: two `accumulate_grads` calls on positionally matched source
sequences equal one call with the element-wise pre-summed sources; a
single call performs only element-wise addition into the owned gradient
buffers (no normalization), leaving parameters and `t` unchanged. -/
theorem C6_accumulate_grads (o : Optimizer) (A B : List Buffer)
    (h : A.length = B.length) :
    accumulate_grads (accumulate_grads o A) B
      = accumulate_grads o (List.zipWith (fun a b => List.zipWith (fun x y => x + y) a b) A B) ∧
    (accumulate_grads o A).grads
      = (List.zipWith (fun g a => List.zipWith (fun x y => x + y) g a) o.grads A)
        ++ o.grads.drop A.length ∧
    (accumulate_grads o A).params = o.params ∧
    (accumulate_grads o A).t = o.t := by
  refine ⟨?_, ?_, ?_, rfl⟩
  · simp only [accumulate_grads]
    rw [accTuples_accTuples o.tuples A B h]
  · exact accTuples_grads o.tuples A
  · exact accTuples_params o.tuples A

/-- Witness for C6 on two concrete matched shard gradient sets. -/
theorem C6_accumulate_grads_witness :
    ([[1, 1]] : List Buffer).length = ([[2, 3]] : List Buffer).length ∧
    (accumulate_grads (accumulate_grads ex1 [[1, 1]]) [[2, 3]]
      = accumulate_grads ex1
          (List.zipWith (fun a b => List.zipWith (fun x y => x + y) a b) [[1, 1]] [[2, 3]]) ∧
     (accumulate_grads ex1 [[1, 1]]).grads
      = (List.zipWith (fun g a => List.zipWith (fun x y => x + y) g a) ex1.grads [[1, 1]])
        ++ ex1.grads.drop ([[1, 1]] : List Buffer).length ∧
     (accumulate_grads ex1 [[1, 1]]).params = ex1.params ∧
     (accumulate_grads ex1 [[1, 1]]).t = ex1.t) :=
  ⟨rfl, C6_accumulate_grads ex1 [[1, 1]] [[2, 3]] rfl⟩

lemma weight_decay_buffer_twice (g p : Buffer) (d1 d2 : ℝ) :
    List.zipWith (fun x y => x + d2 * y)
        (List.zipWith (fun x y => x + d1 * y) g p) p
      = List.zipWith (fun x y => x + (d1 + d2) * y) g p := by
  induction g generalizing p with
  | nil => simp
  | cons x g ih =>
      cases p with
      | nil => simp
      | cons y p => simp [ih]; ring

lemma zipWith_map_same {α β γ δ : Type} (f : β → γ → δ) (u : α → β) (v : α → γ)
    (l : List α) :
    List.zipWith f (l.map u) (l.map v) = l.map (fun x => f (u x) (v x)) := by
  induction l with
  | nil => simp
  | cons x l ih => simp [ih]

/-- Claim C7: `weight_decay(decay)` adds `decay * parameter` element-wise
into each gradient buffer in place, leaves the parameters (and `t` and the
states) unchanged, and is linear in the coefficient: applying it with `d1`
then `d2` equals one application with `d1 + d2`. -/
theorem C7_weight_decay (o : Optimizer) (d1 d2 : ℝ) :
    (weight_decay o d1).params = o.params ∧
    (weight_decay o d1).t = o.t ∧
    (weight_decay o d1).states = o.states ∧
    (weight_decay o d1).grads
      = List.zipWith (fun g p => List.zipWith (fun x y => x + d1 * y) g p)
          o.grads o.params ∧
    weight_decay (weight_decay o d1) d2 = weight_decay o (d1 + d2) := by
  refine ⟨?_, rfl, ?_, ?_, ?_⟩
  · simp [weight_decay, Optimizer.params, List.map_map, Function.comp_def]
  · simp [weight_decay, Optimizer.states, List.map_map, Function.comp_def]
  · simp only [weight_decay, Optimizer.grads, Optimizer.params, List.map_map,
      Function.comp_def, zipWith_map_same]
  · simp only [weight_decay, List.map_map]
    congr 1
    refine List.map_congr_left ?_
    intro tr _
    simp [Function.comp_def, weight_decay_buffer_twice]

lemma sum_sqnorm_scale (ts : List Triple) (r : ℝ) :
    (ts.map (fun tr => _sqnorm (tr.2.1.map (fun a => a * r)))).sum
      = r ^ 2 * (ts.map (fun tr => _sqnorm tr.2.1)).sum := by
  induction ts with
  | nil => simp
  | cons tr ts ih =>
      rw [List.map_cons, List.map_cons, List.sum_cons, List.sum_cons, ih, sqnorm_scale]
      ring

lemma sqnormAll_ex1 : sqnormAll ex1 = 25 := by
  simp only [sqnormAll, ex1, setup, _sqnorm, init_state, init_state_cpu, List.zip_cons_cons,
    List.zip_nil_right, List.map_cons, List.map_nil, List.sum_cons, List.sum_nil]
  norm_num

lemma compute_grads_norm_ex1 : compute_grads_norm ex1 = 5 := by
  rw [compute_grads_norm, sqnormAll_ex1, show (25 : ℝ) = 5 ^ 2 by norm_num,
    Real.sqrt_sq (by norm_num : (0 : ℝ) ≤ 5)]

/-- Claim C1: `clip_grads(maxnorm)` with `0 < maxnorm` is a no-op when the
pre-clip global norm is at most `maxnorm`; otherwise it rescales every
gradient buffer in place by the common ratio `maxnorm / norm`, after which
the global norm equals `maxnorm` exactly (the exact-real reading of
"within floating-point tolerance").  On the concrete scenario (parameter
`[1, 2]`, gradient `[3, 4]`), `compute_grads_norm` returns `5` and
`clip_grads 2.5` turns the gradient into `[1.5, 2]`. -/
theorem C1_clip_grads (o : Optimizer) (maxnorm : ℝ) (hm : 0 < maxnorm) :
    (compute_grads_norm o ≤ maxnorm → clip_grads o maxnorm = o) ∧
    (maxnorm < compute_grads_norm o →
       (clip_grads o maxnorm).tuples
         = o.tuples.map (fun tr =>
             (tr.1, tr.2.1.map (fun a => a * (maxnorm / compute_grads_norm o)), tr.2.2)) ∧
       compute_grads_norm (clip_grads o maxnorm) = maxnorm) ∧
    compute_grads_norm ex1 = 5 ∧
    (clip_grads ex1 2.5).grads = [[1.5, 2]] := by
  refine ⟨?_, ?_, compute_grads_norm_ex1, ?_⟩
  · intro h
    have hng : ¬ (compute_grads_norm o > maxnorm) := not_lt.mpr h
    simp [clip_grads, hng]
  · intro h
    have htup : (clip_grads o maxnorm).tuples
        = o.tuples.map (fun tr =>
            (tr.1, tr.2.1.map (fun a => a * (maxnorm / compute_grads_norm o)), tr.2.2)) := by
      simp [clip_grads, h]
    refine ⟨htup, ?_⟩
    have hnorm : 0 < compute_grads_norm o := lt_trans hm h
    have hr : 0 ≤ maxnorm / compute_grads_norm o := div_nonneg hm.le hnorm.le
    have hS : sqnormAll (clip_grads o maxnorm)
        = (maxnorm / compute_grads_norm o) ^ 2 * sqnormAll o := by
      rw [sqnormAll, htup, List.map_map]
      simpa [Function.comp_def] using sum_sqnorm_scale o.tuples (maxnorm / compute_grads_norm o)
    rw [compute_grads_norm, hS, Real.sqrt_mul (sq_nonneg _) _, Real.sqrt_sq hr]
    exact div_mul_cancel₀ maxnorm (ne_of_gt hnorm)
  · have hgt : compute_grads_norm ex1 > 2.5 := by
      rw [compute_grads_norm_ex1]; norm_num
    have hratio : (2.5 : ℝ) / compute_grads_norm ex1 = 1 / 2 := by
      rw [compute_grads_norm_ex1]; norm_num
    have htup : clip_grads ex1 2.5
        = { ex1 with tuples := (ex1.tuples.map (fun tr =>
            (tr.1, tr.2.1.map (fun a => a * (2.5 / compute_grads_norm ex1)), tr.2.2))) } := by
      simp [clip_grads, hgt]
    rw [htup]
    simp only [hratio]
    simp only [Optimizer.grads, List.map_map, ex1, setup, init_state, init_state_cpu,
      List.zip_cons_cons, List.zip_nil_right, List.map_cons, List.map_nil,
      Function.comp_def]
    norm_num

/-- Witness for C1 at the concrete scenario input with `maxnorm = 2.5`. -/
theorem C1_clip_grads_witness :
    (0 : ℝ) < 2.5 ∧
    ((compute_grads_norm ex1 ≤ 2.5 → clip_grads ex1 2.5 = ex1) ∧
     (2.5 < compute_grads_norm ex1 →
        (clip_grads ex1 2.5).tuples
          = ex1.tuples.map (fun tr =>
              (tr.1, tr.2.1.map (fun a => a * (2.5 / compute_grads_norm ex1)), tr.2.2)) ∧
        compute_grads_norm (clip_grads ex1 2.5) = 2.5) ∧
     compute_grads_norm ex1 = 5 ∧
     (clip_grads ex1 2.5).grads = [[1.5, 2]]) :=
  ⟨by norm_num, C1_clip_grads ex1 2.5 (by norm_num)⟩

/-- Claim C2: `compute_grads_norm` equals the square root of the sum of
squares of all gradient elements (the L2 norm of the concatenation of the
gradient buffers) and is invariant under reordering of the triples.  It is
read-only by construction: it is a pure function of the optimizer value
returning a real, and no operation on the state is involved. -/
theorem C2_compute_grads_norm (o o2 : Optimizer) (hp : o.tuples.Perm o2.tuples) :
    compute_grads_norm o
      = Real.sqrt (((o.grads.flatten).map (fun a => a * a)).sum) ∧
    compute_grads_norm o = compute_grads_norm o2 := by
  constructor
  · rw [compute_grads_norm]
    congr 1
    rw [List.map_flatten, List.sum_flatten, List.map_map]
    simp [Optimizer.grads, sqnormAll, List.map_map, Function.comp_def, _sqnorm]
  · rw [compute_grads_norm, compute_grads_norm]
    congr 1
    exact List.Perm.sum_eq (hp.map _)

/-- Two-parameter optimizer and its reordering, used to witness C2. -/
def ex2 : Optimizer := setup [[1], [2]] [[3], [4]]

/-- `ex2` with its two triples swapped. -/
def ex2b : Optimizer := setup [[2], [1]] [[4], [3]]

/-- Witness for C2 on a concrete reordered pair of optimizers. -/
theorem C2_compute_grads_norm_witness :
    ex2.tuples.Perm ex2b.tuples ∧
    (compute_grads_norm ex2
       = Real.sqrt (((ex2.grads.flatten).map (fun a => a * a)).sum) ∧
     compute_grads_norm ex2 = compute_grads_norm ex2b) := by
  have hp : ex2.tuples.Perm ex2b.tuples := List.Perm.swap _ _ _
  exact ⟨hp, C2_compute_grads_norm ex2 ex2b hp⟩

/-- Counterexample to Claim C3 as stated: calling `setup` with
parameter/gradient sequences of mismatched lengths (two parameters, one
gradient) is NOT fatal — `zip` silently truncates, the call completes
normally and leaves the optimizer configured with one triple and
`t = 0`. -/
theorem C3_counterexample :
    (setup [[1], [2]] [[3]]).tuples.length = 1 ∧ (setup [[1], [2]] [[3]]).t = 0 := by
  exact ⟨rfl, rfl⟩

/-- Claim C3 as amended: invoking any operation other than `setup` while
unconfigured fails immediately with `AttributeError` (fail fast, no
recovery), and `setup` itself always succeeds — on mismatched-length
sequences it silently truncates to the shorter length instead of
failing. -/
theorem C3_amended (params grads gs : List Buffer) (m d : ℝ) :
    zero_gradsObj OptObj.unconfigured = .error .attributeError ∧
    compute_grads_normObj OptObj.unconfigured = .error .attributeError ∧
    clip_gradsObj OptObj.unconfigured m = .error .attributeError ∧
    weight_decayObj OptObj.unconfigured d = .error .attributeError ∧
    accumulate_gradsObj OptObj.unconfigured gs = .error .attributeError ∧
    updateObj OptObj.unconfigured = .error .attributeError ∧
    (setupObj OptObj.unconfigured params grads).conf = some (setup params grads) ∧
    (setup params grads).tuples.length = min params.length grads.length := by
  refine ⟨rfl, rfl, rfl, rfl, rfl, rfl, rfl, ?_⟩
  simp [setup]

end Chainer
